import Mathlib

/-!
Shallow embedding of the TC-Parent-Portal core logic
(src/attached_assets/routes_1755332037686.py) and the parts of
main_1755332037686.py that consume it.

External effects are modelled as explicit inputs:
  * the tblTimes table behind `get_time` is a function `Nat → Option String`
    (TimeID ↦ stored Time label, `none` = no row);
  * dateutil.parser.parse is an abstract parser `String → Option Date`
    (`none` = the parser raises);
  * the tblInquiry / tblstudents tables are lists of rows;
  * the stored procedure behind `get_hours_balance` is a function
    `Nat → ProcResult` (inquiry id ↦ outcome of the external call).

A Python exception escaping a helper is an `Except.error`; a fallible
Python value (key miss, NULL) is an `Option`.
-/

namespace TCPortal

/-! ## Dates (python `datetime.date`, proleptic Gregorian, year ≥ 1) -/

structure Date where
  year : Nat
  month : Nat
  day : Nat
deriving DecidableEq, Repr

/-- Python `date.__lt__`: lexicographic on (year, month, day). -/
def dateLt (a b : Date) : Bool :=
  a.year < b.year ||
    (a.year == b.year &&
      (a.month < b.month || (a.month == b.month && a.day < b.day)))

def isLeap (y : Nat) : Bool :=
  y % 4 == 0 && (y % 100 != 0 || y % 400 == 0)

/-- Cumulative days before month `m` (1-based) in a non-leap year. -/
def daysBeforeMonth (m : Nat) : Nat :=
  match m with
  | 1 => 0 | 2 => 31 | 3 => 59 | 4 => 90 | 5 => 120 | 6 => 151
  | 7 => 181 | 8 => 212 | 9 => 243 | 10 => 273 | 11 => 304 | _ => 334

/-- Python `date.toordinal`: day count with 0001-01-01 ↦ 1. -/
def toOrdinal (d : Date) : Nat :=
  let y := d.year - 1
  365 * y + y / 4 - y / 100 + y / 400 +
    daysBeforeMonth d.month +
    (if 2 < d.month && isLeap d.year then 1 else 0) +
    d.day

/-- Python `date.strftime("%A")`: full weekday name (0001-01-01 is a Monday). -/
def weekdayName (d : Date) : String :=
  match (toOrdinal d + 6) % 7 with
  | 0 => "Monday"
  | 1 => "Tuesday"
  | 2 => "Wednesday"
  | 3 => "Thursday"
  | 4 => "Friday"
  | 5 => "Saturday"
  | _ => "Sunday"

def pad2 (n : Nat) : String :=
  if n < 10 then "0" ++ toString n else toString n

def pad4 (n : Nat) : String :=
  if n < 10 then "000" ++ toString n
  else if n < 100 then "00" ++ toString n
  else if n < 1000 then "0" ++ toString n
  else toString n

/-- Python `date.strftime("%Y-%m-%d")`. -/
def formatYMD (d : Date) : String :=
  pad4 d.year ++ "-" ++ pad2 d.month ++ "-" ++ pad2 d.day

/-! ## 24-hour time parsing and 12-hour formatting (`get_time`) -/

/-- Split a character list on the colon character (groups between colons). -/
def splitOnColon : List Char → List (List Char)
  | [] => [[]]
  | c :: cs =>
    match splitOnColon cs with
    | [] => [[c]]
    | g :: gs => if c == ':' then [] :: g :: gs else (c :: g) :: gs

def isDigitChar (c : Char) : Bool :=
  47 < c.toNat && c.toNat < 58

/-- A strptime numeric field: one or two digits. -/
def digitsField (l : List Char) : Bool :=
  !l.isEmpty && l.length ≤ 2 && l.all isDigitChar

def digitsToNat (l : List Char) : Nat :=
  l.foldl (fun acc c => acc * 10 + (c.toNat - 48)) 0

/-- Model of `datetime.strptime(s, "%H:%M:%S")`: three colon-separated fields of one
or two digits, hour ≤ 23, minute ≤ 59, second ≤ 61 (strptime admits leap
seconds).  `none` models strptime raising ValueError. -/
def parseTime24 (s : String) : Option (Nat × Nat × Nat) :=
  match splitOnColon s.data with
  | [hs, ms, ss] =>
    if digitsField hs && digitsField ms && digitsField ss then
      let h := digitsToNat hs
      let m := digitsToNat ms
      let sec := digitsToNat ss
      if h ≤ 23 && m ≤ 59 && sec ≤ 61 then some (h, m, sec) else none
    else none
  | _ => none

/-- Model of python `str.lstrip("0")`: drop every leading zero character. -/
def lstripZeros (s : String) : String :=
  String.mk (s.data.dropWhile (fun c => c == '0'))

/-- Model of `time_obj.strftime("%I:%M %p").lstrip("0")`. -/
def formatTime12 (h m : Nat) : String :=
  let h12 := if h % 12 == 0 then 12 else h % 12
  lstripZeros (pad2 h12 ++ ":" ++ pad2 m ++ " " ++ (if h < 12 then "AM" else "PM"))

/-- Embedding of `get_time` (routes lines 11-27).  `timesDB tid` is the Time column of the
tblTimes row with ID = tid (`none` = no row).  Returns `Except.error ()` when
strptime raises inside the function (the exception escapes to the caller),
`Except.ok none` for the falsy-row/falsy-Time paths, `Except.ok (some s)` for
the formatted label. -/
def get_time (timesDB : Nat → Option String) (tid : Nat) :
    Except Unit (Option String) :=
  match timesDB tid with
  | none => Except.ok none
  | some t =>
    if t == "" then Except.ok none
    else
      match parseTime24 t with
      | none => Except.error ()
      | some (h, m, _) => Except.ok (some (formatTime12 h m))

/-! ## Session aggregator (`get_sessions`, routes lines 120-181) -/

/-- Raw value of the ScheduleDate column: a datetime (only its `.date()`
matters), a string, or anything else (NULL, int, ...). -/
inductive SchedRaw where
  | dt (d : Date)
  | strv (s : String)
  | other
deriving DecidableEq, Repr

/-- One row of dpinkney_TC.dbo.tblSessionSchedule as fetched by
`get_sessions` (Day, TimeID, ScheduleDate, StudentId1).  Day and TimeID are
nullable columns. -/
structure SessionRow where
  day : Option String
  timeID : Option Nat
  scheduleDate : SchedRaw
  studentId : Nat
deriving DecidableEq, Repr

/-- The session dict as returned by `get_sessions`: the original columns
plus the derived fields.  `Time`/`FormattedDate` are `none` when the key was
never set (exception fallback path) or was set to Python None. -/
structure OutSession where
  Day : Option String
  TimeID : Option Nat
  ScheduleDate : SchedRaw
  StudentId1 : Nat
  Time : Option String
  FormattedDate : Option String
  category : String
deriving DecidableEq, Repr

/-- Lines 141-142: `formatted_time = get_time(time_id) if time_id else
"Unknown"`.  A NULL or zero TimeID is falsy in Python, so those rows skip
the lookup and get the literal "Unknown". -/
def resolveTime (timesDB : Nat → Option String) (tid : Option Nat) :
    Except Unit (Option String) :=
  match tid with
  | none => Except.ok (some "Unknown")
  | some 0 => Except.ok (some "Unknown")
  | some t => get_time timesDB t

/-- Lines 146-157: normalize ScheduleDate to a date, `none` meaning the row
is skipped by `continue` (string the parser rejects, or a value that is
neither datetime nor string).  `pd` is dateutil.parser.parse. -/
def normalizeDate (pd : String → Option Date) : SchedRaw → Option Date
  | SchedRaw.dt d => some d
  | SchedRaw.strv s => pd s
  | SchedRaw.other => none

/-- Characters stripped by python `str.strip()` with no argument. -/
def pyIsSpace (c : Char) : Bool :=
  c == ' ' || c == '\t' || c == '\n' || c == '\r' || c.toNat == 11 || c.toNat == 12

/-- Model of python `str.strip()`: remove leading and trailing whitespace. -/
def pyStrip (s : String) : String :=
  String.mk (((s.data.dropWhile pyIsSpace).reverse.dropWhile pyIsSpace).reverse)

/-- Line 165 condition: `not session.get("Day") or session["Day"].strip() == ""`
for a nullable string column (None and "" are falsy; otherwise strip and
compare with the empty string). -/
def isBlankDay : Option String → Bool
  | none => true
  | some s => pyStrip s == ""

/-- Body of the per-session loop (lines 138-178).  `none` = the row is
dropped by `continue`; `some (b, o)` = the row is appended, to
recent_sessions when `b` and to upcoming_sessions otherwise.  When the time
lookup raises (the only fallible step before the date filter), the outer
`except` (lines 176-178) fires: the row keeps its original fields, gains
category "upcoming" and is appended to upcoming_sessions — the date filter
is never reached on that path. -/
def processSession (timesDB : Nat → Option String) (pd : String → Option Date)
    (today : Date) (s : SessionRow) : Option (Bool × OutSession) :=
  match resolveTime timesDB s.timeID with
  | Except.error _ =>
    some (false,
      { Day := s.day, TimeID := s.timeID, ScheduleDate := s.scheduleDate,
        StudentId1 := s.studentId, Time := none, FormattedDate := none,
        category := "upcoming" })
  | Except.ok t =>
    match normalizeDate pd s.scheduleDate with
    | none => none
    | some d =>
      if d.month != today.month || d.year != today.year then none
      else
        let day2 := if isBlankDay s.day then some (weekdayName d) else s.day
        let isRecent := dateLt d today
        some (isRecent,
          { Day := day2, TimeID := s.timeID, ScheduleDate := s.scheduleDate,
            StudentId1 := s.studentId, Time := t,
            FormattedDate := some (formatYMD d),
            category := if isRecent then "recent" else "upcoming" })

/-- Embedding of `get_sessions` (routes lines 120-181).  `sessDB` is
tblSessionSchedule; the SQL WHERE clause keeps the rows with
StudentId1 = sid.  The loop appends each kept row to recent_sessions or
upcoming_sessions in retrieval order and the function returns
`recent_sessions + upcoming_sessions`. -/
def get_sessions (timesDB : Nat → Option String) (pd : String → Option Date)
    (today : Date) (sessDB : List SessionRow) (sid : Nat) : List OutSession :=
  let all_sessions := sessDB.filter (fun s => s.studentId == sid)
  let processed := all_sessions.filterMap (processSession timesDB pd today)
  (processed.filter (fun p => p.1)).map (fun p => p.2) ++
    (processed.filter (fun p => !p.1)).map (fun p => p.2)

/-- Keep the output of `f` when its flag equals `b`. -/
def keepIf (b : Bool) (f : α → Option (Bool × β)) (s : α) : Option β :=
  match f s with
  | some (bb, o) => if bb == b then some o else none
  | none => none

/-- The recent_sessions list of `get_sessions`: the rows the loop appended
to the first bucket, in retrieval order. -/
def recentOf (timesDB : Nat → Option String) (pd : String → Option Date)
    (today : Date) (sessDB : List SessionRow) (sid : Nat) : List OutSession :=
  (sessDB.filter (fun s => s.studentId == sid)).filterMap
    (keepIf true (processSession timesDB pd today))

/-- The upcoming_sessions list of `get_sessions`: the rows the loop appended
to the second bucket, in retrieval order. -/
def upcomingOf (timesDB : Nat → Option String) (pd : String → Option Date)
    (today : Date) (sessDB : List SessionRow) (sid : Nat) : List OutSession :=
  (sessDB.filter (fun s => s.studentId == sid)).filterMap
    (keepIf false (processSession timesDB pd today))

/-! ## Balance lookup (`get_hours_balance`, routes lines 60-116) -/

/-- A value read from a stored-procedure result-set column, classified by
how Python `float()` treats it: NULL, a value `float` converts to `x`
(int / float / Decimal / numeric string), or one where `float` raises
TypeError / ValueError. -/
inductive DbVal where
  | null
  | num (x : Rat)
  | nonNumeric
deriving DecidableEq, Repr

/-- Embedding of `safe_float` applied to `balance_data.get(key)` (lines 85-96):
`none` is a missing key (dict.get gives None). -/
def safe_float : Option DbVal → Rat
  | none => 0
  | some DbVal.null => 0
  | some (DbVal.num x) => x
  | some DbVal.nonNumeric => 0

/-- Outcome of the external stored-procedure call together with everything
up to building balance_data / extra_data (lines 64-82): either some step
raised, or it produced the second result set's row as a keyed dict and the
third result set's rows. -/
inductive ProcResult where
  | err
  | ok (balance : List (String × DbVal)) (extra : List (List (String × DbVal)))
deriving DecidableEq, Repr

structure BalanceOut where
  balance : List (String × DbVal)
  extra : List (List (String × DbVal))
  remaining_hours : Rat
deriving DecidableEq, Repr

/-- Embedding of `get_hours_balance` (routes lines 60-116).  `ext` maps the
inquiry id to the outcome of the external call; the whole body sits in a
try/except whose except branch returns the zeroed structure. -/
def get_hours_balance (ext : Nat → ProcResult) (inquiry_id : Nat) : BalanceOut :=
  match ext inquiry_id with
  | ProcResult.err => { balance := [], extra := [], remaining_hours := 0 }
  | ProcResult.ok bal extra =>
    let purchases := safe_float (bal.lookup "Purchases")
    let attendance := safe_float (bal.lookup "AttendancePresent")
    let absences := safe_float (bal.lookup "UnexcusedAbsences")
    let adjustments := safe_float (bal.lookup "MiscAdjustments")
    let remaining := purchases + attendance + absences + adjustments
    { balance := bal, extra := extra, remaining_hours := remaining }

/-! ## Contact lookup (`find_inquiry_by_contact_phone`, routes lines 30-57)
and the `search_student` handler (lines 187-231) -/

/-- One row of tblInquiry as selected (ID AS InquiryID, Email, ContactPhone). -/
structure Inquiry where
  InquiryID : Nat
  Email : Option String
  ContactPhone : String
deriving DecidableEq, Repr

/-- One row of tblstudents as selected (ID, FirstName, LastName), plus the
InquiryID foreign key used by the WHERE clause. -/
structure Student where
  ID : Nat
  FirstName : String
  LastName : String
  InquiryID : Nat
deriving DecidableEq, Repr

/-- A value of the dict returned by `find_inquiry_by_contact_phone`: the
"inquiry" key holds the inquiry row, the "students" key the student list. -/
inductive ResVal where
  | inq (i : Inquiry)
  | studs (l : List Student)
deriving DecidableEq, Repr

/-- Embedding of `find_inquiry_by_contact_phone` (routes lines 30-57).
fetchone takes the first tblInquiry row whose ContactPhone equals the
argument; `none` is Python None (no parent found); otherwise the returned
dict has exactly the keys "inquiry" and "students". -/
def find_inquiry_by_contact_phone (inquiries : List Inquiry)
    (students : List Student) (contact_num : String) :
    Option (List (String × ResVal)) :=
  match inquiries.find? (fun i => i.ContactPhone == contact_num) with
  | none => none
  | some i =>
    some [("inquiry", ResVal.inq i),
          ("students",
            ResVal.studs (students.filter (fun s => s.InquiryID == i.InquiryID)))]

/-- Observable outcome of the `search_student` handler (routes lines
187-231), modelled up to the `inquiry["ID"]` subscript on line 202:
missing/empty contact_num → 400; lookup returned None → 404; the subscript
missing its key → KeyError (an unhandled exception); otherwise the handler
would continue to the success response. -/
inductive SearchOutcome where
  | badRequest
  | parentNotFound
  | keyError
  | proceeds (v : ResVal)
deriving DecidableEq, Repr

/-- Embedding of the prefix of `search_student` up to line 202.  The steps
after the subscript (student query, balance, sessions, jsonify) are not
modelled: theorem c9 below shows the subscript misses for every found
parent, so they are unreachable. -/
def search_student (inquiries : List Inquiry) (students : List Student)
    (contact_num : Option String) : SearchOutcome :=
  match contact_num with
  | none => SearchOutcome.badRequest
  | some cn =>
    if cn == "" then SearchOutcome.badRequest
    else
      match find_inquiry_by_contact_phone inquiries students cn with
      | none => SearchOutcome.parentNotFound
      | some r =>
        match r.lookup "ID" with
        | none => SearchOutcome.keyError
        | some v => SearchOutcome.proceeds v

/-! ## Helper lemmas -/

/-- Case analysis on one loop iteration of `get_sessions`: an appended row
comes either from the exception fallback (time lookup raised) or from the
normal path (time ok, date parsed, date in the current month and year). -/
theorem processSession_eq_some {timesDB : Nat → Option String}
    {pd : String → Option Date} {today : Date} {s : SessionRow} {b : Bool}
    {o : OutSession}
    (h : processSession timesDB pd today s = some (b, o)) :
    (resolveTime timesDB s.timeID = Except.error () ∧ b = false ∧
      o = { Day := s.day, TimeID := s.timeID, ScheduleDate := s.scheduleDate,
            StudentId1 := s.studentId, Time := none, FormattedDate := none,
            category := "upcoming" })
    ∨ (∃ t d, resolveTime timesDB s.timeID = Except.ok t ∧
        normalizeDate pd s.scheduleDate = some d ∧
        d.month = today.month ∧ d.year = today.year ∧
        b = dateLt d today ∧
        o = { Day := if isBlankDay s.day then some (weekdayName d) else s.day,
              TimeID := s.timeID, ScheduleDate := s.scheduleDate,
              StudentId1 := s.studentId, Time := t,
              FormattedDate := some (formatYMD d),
              category := if dateLt d today then "recent" else "upcoming" }) := by
  unfold processSession at h
  split at h
  next e heq =>
    cases e
    simp only [Option.some.injEq, Prod.mk.injEq] at h
    exact Or.inl ⟨heq, h.1.symm, h.2.symm⟩
  next t heq =>
    split at h
    next hnd => exact absurd h (by simp)
    next d hnd =>
      split at h
      next hm => exact absurd h (by simp)
      next hm =>
        simp only [Bool.or_eq_true, bne_iff_ne, ne_eq, not_or, not_not] at hm
        simp only [Option.some.injEq, Prod.mk.injEq] at h
        exact Or.inr ⟨t, d, heq, hnd, hm.1, hm.2, h.1.symm, h.2.symm⟩

/-- Every element of the output of `get_sessions` is the image of a fetched
row under the loop body. -/
theorem mem_get_sessions {timesDB : Nat → Option String}
    {pd : String → Option Date} {today : Date} {db : List SessionRow}
    {sid : Nat} {o : OutSession}
    (h : o ∈ get_sessions timesDB pd today db sid) :
    ∃ s, s ∈ db.filter (fun r => r.studentId == sid) ∧ ∃ b,
      processSession timesDB pd today s = some (b, o) := by
  unfold get_sessions at h
  rcases List.mem_append.mp h with h1 | h1
  all_goals
    rcases List.mem_map.mp h1 with ⟨p, hp, rfl⟩
    rcases List.mem_filter.mp hp with ⟨hpm, _⟩
    rcases List.mem_filterMap.mp hpm with ⟨s, hs, hps⟩
    exact ⟨s, hs, p.1, by rw [Prod.mk.eta]; exact hps⟩

theorem filterMap_keep_true (f : α → Option (Bool × β)) (l : List α) :
    ((l.filterMap f).filter (fun p => p.1)).map (fun p => p.2)
      = l.filterMap (keepIf true f) := by
  induction l with
  | nil => rfl
  | cons a l ih =>
    simp only [List.filterMap_cons]
    cases hfa : f a with
    | none => simpa [keepIf, hfa] using ih
    | some p =>
      rcases p with ⟨b, o⟩
      cases b
      · simpa [keepIf, hfa] using ih
      · simp [keepIf, hfa, List.filter_cons, ih]

theorem filterMap_keep_false (f : α → Option (Bool × β)) (l : List α) :
    ((l.filterMap f).filter (fun p => !p.1)).map (fun p => p.2)
      = l.filterMap (keepIf false f) := by
  induction l with
  | nil => rfl
  | cons a l ih =>
    simp only [List.filterMap_cons]
    cases hfa : f a with
    | none => simpa [keepIf, hfa] using ih
    | some p =>
      rcases p with ⟨b, o⟩
      cases b
      · simp [keepIf, hfa, List.filter_cons, ih]
      · simpa [keepIf, hfa] using ih

/-- The output of `get_sessions` is exactly the recent bucket followed by
the upcoming bucket. -/
theorem get_sessions_eq_parts (timesDB : Nat → Option String)
    (pd : String → Option Date) (today : Date) (db : List SessionRow)
    (sid : Nat) :
    get_sessions timesDB pd today db sid =
      recentOf timesDB pd today db sid ++ upcomingOf timesDB pd today db sid := by
  simp only [get_sessions, recentOf, upcomingOf]
  rw [filterMap_keep_true, filterMap_keep_false]

/-- Membership in a `keepIf` bucket gives the loop-body equation with the
matching flag. -/
theorem mem_keepIf_filterMap {f : α → Option (Bool × β)} {b : Bool}
    {l : List α} {o : β} (h : o ∈ l.filterMap (keepIf b f)) :
    ∃ s, s ∈ l ∧ f s = some (b, o) := by
  rcases List.mem_filterMap.mp h with ⟨s, hs, hk⟩
  refine ⟨s, hs, ?_⟩
  unfold keepIf at hk
  split at hk
  next bb oo hfs =>
    by_cases hbb : (bb == b) = true
    · rw [if_pos hbb] at hk
      simp only [Option.some.injEq] at hk
      have hb2 : bb = b := by simpa using hbb
      rw [hfs, hb2, hk]
    · rw [if_neg hbb] at hk; exact absurd hk (by simp)
  next hfs => exact absurd hk (by simp)

/-- Every element of the recent bucket has category "recent". -/
theorem mem_recentOf_category {timesDB : Nat → Option String}
    {pd : String → Option Date} {today : Date} {db : List SessionRow}
    {sid : Nat} {o : OutSession}
    (h : o ∈ recentOf timesDB pd today db sid) : o.category = "recent" := by
  rcases mem_keepIf_filterMap h with ⟨s, _, hps⟩
  rcases processSession_eq_some hps with ⟨_, hb, _⟩ | ⟨t, d, _, _, _, _, hb, ho⟩
  · exact absurd hb (by simp)
  · rw [ho]
    rw [← hb]
    rfl

/-- Every element of the upcoming bucket has category "upcoming". -/
theorem mem_upcomingOf_category {timesDB : Nat → Option String}
    {pd : String → Option Date} {today : Date} {db : List SessionRow}
    {sid : Nat} {o : OutSession}
    (h : o ∈ upcomingOf timesDB pd today db sid) : o.category = "upcoming" := by
  rcases mem_keepIf_filterMap h with ⟨s, _, hps⟩
  rcases processSession_eq_some hps with ⟨_, _, ho⟩ | ⟨t, d, _, _, _, _, hb, ho⟩
  · rw [ho]
  · rw [ho]
    simp only [← hb]
    rfl

/-! ## Claim theorems -/

/-- C2: for every inquiry identifier, when the external balance computation
or any subsequent processing step fails, `get_hours_balance` returns
exactly the zeroed structure (empty balance dict, empty extra list,
remaining_hours 0.0); being a total Lean function it propagates no
exception. -/
theorem c2_balance_failure_zeroed (ext : Nat → ProcResult) (inquiry_id : Nat)
    (h : ext inquiry_id = ProcResult.err) :
    get_hours_balance ext inquiry_id =
      { balance := [], extra := [], remaining_hours := 0 } := by
  unfold get_hours_balance
  rw [h]

/-- Witness for C2 at a concrete failing external call. -/
theorem c2_balance_failure_zeroed_witness :
    get_hours_balance (fun _ => ProcResult.err) 5 =
      { balance := [], extra := [], remaining_hours := 0 } :=
  c2_balance_failure_zeroed (fun _ => ProcResult.err) 5 rfl

/-- C5: when the external balance computation succeeds, remaining_hours is
the sum of the four safe-cast fields Purchases, AttendancePresent,
UnexcusedAbsences and MiscAdjustments (0.0 for a missing or non-numeric
field), and on the example 40 / -5 / -2 / 0 the total is 33. -/
theorem c5_remaining_hours_sum :
    (∀ (ext : Nat → ProcResult) (iid : Nat) (bal : List (String × DbVal))
        (extra : List (List (String × DbVal))),
      ext iid = ProcResult.ok bal extra →
        (get_hours_balance ext iid).remaining_hours =
          safe_float (bal.lookup "Purchases") +
            safe_float (bal.lookup "AttendancePresent") +
            safe_float (bal.lookup "UnexcusedAbsences") +
            safe_float (bal.lookup "MiscAdjustments"))
    ∧ (get_hours_balance
        (fun _ => ProcResult.ok
          [("Purchases", DbVal.num 40), ("AttendancePresent", DbVal.num (-5)),
           ("UnexcusedAbsences", DbVal.num (-2)),
           ("MiscAdjustments", DbVal.num 0)] []) 7).remaining_hours = 33 := by
  constructor
  · intro ext iid bal extra h
    unfold get_hours_balance
    rw [h]
  · show (40 : Rat) + (-5) + (-2) + 0 = 33
    norm_num

/-- Witness for C5 at a concrete successful external call. -/
theorem c5_remaining_hours_sum_witness :
    (get_hours_balance (fun _ => ProcResult.ok [] []) 3).remaining_hours =
      safe_float (([] : List (String × DbVal)).lookup "Purchases") +
        safe_float (([] : List (String × DbVal)).lookup "AttendancePresent") +
        safe_float (([] : List (String × DbVal)).lookup "UnexcusedAbsences") +
        safe_float (([] : List (String × DbVal)).lookup "MiscAdjustments") :=
  c5_remaining_hours_sum.1 (fun _ => ProcResult.ok [] []) 3 [] [] rfl

/-- C6 counterexample: with one inquiry whose phone matches and no students
at all, `find_inquiry_by_contact_phone` returns an ordinary success value
carrying an empty student list — the same shape as any found result and not
the not-found signal — so the no-students case is NOT signaled distinctly
by this function. -/
theorem c6_counterexample :
    find_inquiry_by_contact_phone [⟨10, some "p@x.com", "5551234"⟩] [] "5551234"
      = some [("inquiry", ResVal.inq ⟨10, some "p@x.com", "5551234"⟩),
              ("students", ResVal.studs [])]
    ∧ find_inquiry_by_contact_phone [⟨10, some "p@x.com", "5551234"⟩] []
        "5551234" ≠ none := by
  refine ⟨rfl, ?_⟩
  intro hx
  exact Option.noConfusion hx

/-- C6 (amended): an unknown phone yields the distinct not-found signal
(None); a matched inquiry yields that inquiry with all students sharing its
inquiry identifier — including the ordinary success with an empty student
list when no students exist, which is not a distinct signal. -/
theorem c6_contact_lookup (inquiries : List Inquiry) (students : List Student)
    (cn : String) :
    (inquiries.find? (fun i => i.ContactPhone == cn) = none →
      find_inquiry_by_contact_phone inquiries students cn = none)
    ∧ (∀ i, inquiries.find? (fun i => i.ContactPhone == cn) = some i →
        find_inquiry_by_contact_phone inquiries students cn =
          some [("inquiry", ResVal.inq i),
                ("students", ResVal.studs
                  (students.filter (fun s => s.InquiryID == i.InquiryID)))]) := by
  constructor
  · intro h
    simp [find_inquiry_by_contact_phone, h]
  · intro i h
    simp [find_inquiry_by_contact_phone, h]

/-- Witness for C6 at a concrete unknown phone. -/
theorem c6_contact_lookup_witness :
    find_inquiry_by_contact_phone [] [] "999" = none :=
  (c6_contact_lookup [] [] "999").1 rfl

/-- C7: when the stored label is present (and parseable by strptime),
`get_time` formats it to 12-hour-with-meridiem form with the leading zero
stripped; on "13:00:00" it yields "1:00 PM" and on "09:30:00" it yields
"9:30 AM". -/
theorem c7_time_formatting :
    (∀ (timesDB : Nat → Option String) (tid : Nat) (lbl : String)
        (h m sec : Nat), timesDB tid = some lbl → (lbl == "") = false →
      parseTime24 lbl = some (h, m, sec) →
      get_time timesDB tid = Except.ok (some (formatTime12 h m)))
    ∧ get_time (fun _ => some "13:00:00") 1 = Except.ok (some "1:00 PM")
    ∧ get_time (fun _ => some "09:30:00") 2 = Except.ok (some "9:30 AM") := by
  refine ⟨?_, rfl, rfl⟩
  intro timesDB tid lbl h m sec hdb hne hp
  simp [get_time, hdb, hne, hp]

/-- Witness for C7 at a concrete stored label. -/
theorem c7_time_formatting_witness :
    get_time (fun _ => some "13:00:00") 9 = Except.ok (some (formatTime12 13 0)) :=
  c7_time_formatting.1 (fun _ => some "13:00:00") 9 "13:00:00" 13 0 0 rfl
    (by decide) (by decide)

/-- C9: for every phone for which the contact lookup finds an inquiry, the
returned mapping has exactly the top-level keys "inquiry" and "students"
and no "ID" key, so the `search_student` handler's `inquiry["ID"]`
subscript misses for every found parent (KeyError). -/
theorem c9_id_key_miss (inquiries : List Inquiry) (students : List Student)
    (cn : String) (r : List (String × ResVal))
    (h : find_inquiry_by_contact_phone inquiries students cn = some r)
    (hcn : (cn == "") = false) :
    r.map Prod.fst = ["inquiry", "students"] ∧ r.lookup "ID" = none ∧
      search_student inquiries students (some cn) = SearchOutcome.keyError := by
  have h0 := h
  unfold find_inquiry_by_contact_phone at h
  split at h
  next hfind => exact absurd h (by simp)
  next i hfind =>
    simp only [Option.some.injEq] at h
    subst h
    refine ⟨rfl, rfl, ?_⟩
    have hlk : List.lookup "ID"
        [("inquiry", ResVal.inq i),
         ("students", ResVal.studs
           (List.filter (fun s => s.InquiryID == i.InquiryID) students))]
        = (none : Option ResVal) := rfl
    simp [search_student, hcn, h0, hlk]

/-- Witness for C9 at a concrete matched phone with no students. -/
theorem c9_id_key_miss_witness :
    ([("inquiry", ResVal.inq ⟨10, some "a@b.c", "555"⟩),
      ("students", ResVal.studs ([] : List Student))] :
        List (String × ResVal)).map Prod.fst = ["inquiry", "students"]
    ∧ ([("inquiry", ResVal.inq ⟨10, some "a@b.c", "555"⟩),
        ("students", ResVal.studs ([] : List Student))] :
          List (String × ResVal)).lookup "ID" = none
    ∧ search_student [⟨10, some "a@b.c", "555"⟩] [] (some "555") =
        SearchOutcome.keyError :=
  c9_id_key_miss [⟨10, some "a@b.c", "555"⟩] [] "555"
    [("inquiry", ResVal.inq ⟨10, some "a@b.c", "555"⟩),
     ("students", ResVal.studs [])] rfl (by decide)

/-- C1 counterexample: a session dated 2024-01-05, outside the current
month 2025-08, still appears in the output of `get_sessions` because its
time label "bogus" makes strptime raise inside `get_time` and the exception
fallback appends the row to the upcoming bucket before the date filter is
reached.  This refutes "every session whose date lies outside the current
month/year is excluded ... for all exception paths". -/
theorem c1_counterexample :
    get_sessions (fun _ => some "bogus") (fun _ => none) ⟨2025, 8, 16⟩
        [⟨some "Mon", some 7, SchedRaw.dt ⟨2024, 1, 5⟩, 1⟩] 1
      = [⟨some "Mon", some 7, SchedRaw.dt ⟨2024, 1, 5⟩, 1, none, none, "upcoming"⟩]
    ∧ normalizeDate (fun _ => none) (SchedRaw.dt ⟨2024, 1, 5⟩) = some ⟨2024, 1, 5⟩
    ∧ ((⟨2024, 1, 5⟩ : Date).year == (⟨2025, 8, 16⟩ : Date).year) = false := by
  refine ⟨?_, rfl, rfl⟩
  decide

/-- C1 (amended): every session in the output whose time-resolution step
did not raise has a parseable schedule date lying in the current month and
year; a session whose time lookup raises is admitted to the upcoming bucket
regardless of its date. -/
theorem c1_month_filter (timesDB : Nat → Option String)
    (pd : String → Option Date) (today : Date) (db : List SessionRow)
    (sid : Nat) (o : OutSession)
    (h : o ∈ get_sessions timesDB pd today db sid)
    (hok : resolveTime timesDB o.TimeID ≠ Except.error ()) :
    ∃ d, normalizeDate pd o.ScheduleDate = some d ∧
      d.month = today.month ∧ d.year = today.year := by
  rcases mem_get_sessions h with ⟨s, _, b, hps⟩
  rcases processSession_eq_some hps with ⟨herr, _, ho⟩ |
    ⟨t, d, _, hnd, hm, hy, _, ho⟩
  · rw [ho] at hok
    exact absurd herr hok
  · refine ⟨d, ?_, hm, hy⟩
    rw [ho]
    exact hnd

/-- Witness for C1 (amended) at a concrete in-month session. -/
theorem c1_month_filter_witness :
    ∃ d, normalizeDate (fun _ => none)
        ((⟨some "Mon", some 7, SchedRaw.dt ⟨2025, 8, 5⟩, 1, some "1:00 PM",
           some "2025-08-05", "recent"⟩ : OutSession)).ScheduleDate = some d ∧
      d.month = (⟨2025, 8, 16⟩ : Date).month ∧
      d.year = (⟨2025, 8, 16⟩ : Date).year :=
  c1_month_filter (fun _ => some "13:00:00") (fun _ => none) ⟨2025, 8, 16⟩
    [⟨some "Mon", some 7, SchedRaw.dt ⟨2025, 8, 5⟩, 1⟩] 1
    ⟨some "Mon", some 7, SchedRaw.dt ⟨2025, 8, 5⟩, 1, some "1:00 PM",
      some "2025-08-05", "recent"⟩
    (by decide) (fun hx => Except.noConfusion hx)

/-- C3 counterexample: a session with a valid date 2025-08-01 in the
current month, strictly before today 2025-08-16, is categorized "upcoming"
— not "recent" as the claim demands — because its time label "bogus" makes
strptime raise and the lines 176-178 fallback appends it to the upcoming
bucket without ever comparing the date to today.  This refutes the claim
for sessions on the exception path. -/
theorem c3_counterexample :
    get_sessions (fun _ => some "bogus") (fun _ => none) ⟨2025, 8, 16⟩
        [⟨some "Fri", some 4, SchedRaw.dt ⟨2025, 8, 1⟩, 3⟩] 3
      = [⟨some "Fri", some 4, SchedRaw.dt ⟨2025, 8, 1⟩, 3, none, none,
          "upcoming"⟩]
    ∧ normalizeDate (fun _ => none) (SchedRaw.dt ⟨2025, 8, 1⟩) = some ⟨2025, 8, 1⟩
    ∧ (⟨2025, 8, 1⟩ : Date).month = (⟨2025, 8, 16⟩ : Date).month
    ∧ (⟨2025, 8, 1⟩ : Date).year = (⟨2025, 8, 16⟩ : Date).year
    ∧ dateLt ⟨2025, 8, 1⟩ ⟨2025, 8, 16⟩ = true := by
  refine ⟨?_, rfl, rfl, rfl, rfl⟩
  decide

/-- C3 (amended): the output of `get_sessions` is the recent bucket
followed by the upcoming bucket, each in retrieval order (no secondary
sort), and every element of the buckets carries the matching category; a
session with a valid in-month date whose time-resolution step did not raise
is categorized "recent" exactly when its date is strictly before today and
"upcoming" otherwise (today included) — a session whose time lookup raises
is appended to the upcoming bucket regardless of its date. -/
theorem c3_categorize_and_order (timesDB : Nat → Option String)
    (pd : String → Option Date) (today : Date) (db : List SessionRow)
    (sid : Nat) :
    (get_sessions timesDB pd today db sid =
      recentOf timesDB pd today db sid ++ upcomingOf timesDB pd today db sid)
    ∧ (∀ o ∈ recentOf timesDB pd today db sid, o.category = "recent")
    ∧ (∀ o ∈ upcomingOf timesDB pd today db sid, o.category = "upcoming")
    ∧ (∀ o ∈ get_sessions timesDB pd today db sid, ∀ d,
        normalizeDate pd o.ScheduleDate = some d →
        resolveTime timesDB o.TimeID ≠ Except.error () →
        o.category = (if dateLt d today then "recent" else "upcoming")) := by
  refine ⟨get_sessions_eq_parts timesDB pd today db sid,
    fun o ho => mem_recentOf_category ho,
    fun o ho => mem_upcomingOf_category ho, ?_⟩
  intro o ho d hnd hok
  rcases mem_get_sessions ho with ⟨s, _, b, hps⟩
  rcases processSession_eq_some hps with ⟨herr, _, hoe⟩ |
    ⟨t, d2, _, hnd2, _, _, _, hoe⟩
  · rw [hoe] at hok
    exact absurd herr hok
  · rw [hoe] at hnd
    have hnd3 : normalizeDate pd s.scheduleDate = some d := hnd
    rw [hnd2] at hnd3
    injection hnd3 with hdd
    subst hdd
    rw [hoe]

/-- Witness for C3 at a concrete in-month session. -/
theorem c3_categorize_and_order_witness :
    (⟨some "Mon", some 7, SchedRaw.dt ⟨2025, 8, 5⟩, 1, some "1:00 PM",
        some "2025-08-05", "recent"⟩ : OutSession).category
      = (if dateLt ⟨2025, 8, 5⟩ ⟨2025, 8, 16⟩ then "recent" else "upcoming") :=
  (c3_categorize_and_order (fun _ => some "13:00:00") (fun _ => none)
      ⟨2025, 8, 16⟩ [⟨some "Mon", some 7, SchedRaw.dt ⟨2025, 8, 5⟩, 1⟩] 1).2.2.2
    ⟨some "Mon", some 7, SchedRaw.dt ⟨2025, 8, 5⟩, 1, some "1:00 PM",
      some "2025-08-05", "recent"⟩
    (by decide) ⟨2025, 8, 5⟩ rfl (fun hx => Except.noConfusion hx)

/-- C4 counterexample: a session whose ScheduleDate string the parser
rejects is NOT dropped when its time label also makes strptime raise: the
exception fallback fires before date normalization and the row lands in the
upcoming bucket.  This refutes "every row with an unparseable date is
dropped". -/
theorem c4_counterexample :
    get_sessions (fun _ => some "oops") (fun _ => none) ⟨2025, 8, 16⟩
        [⟨some "Tue", some 3, SchedRaw.strv "not-a-date", 2⟩] 2
      = [⟨some "Tue", some 3, SchedRaw.strv "not-a-date", 2, none, none,
          "upcoming"⟩]
    ∧ normalizeDate (fun _ => none) (SchedRaw.strv "not-a-date") = none := by
  refine ⟨?_, rfl⟩
  decide

/-- C4 (amended): a row whose schedule date fails to normalize (unparseable
string, or neither datetime nor string) is dropped and the rest of the
batch is unaffected, provided its time-resolution step does not raise; a
row whose time lookup raises is admitted to the upcoming bucket before its
date is examined. -/
theorem c4_unparseable_dropped (timesDB : Nat → Option String)
    (pd : String → Option Date) (today : Date) (sid : Nat)
    (pre post : List SessionRow) (row : SessionRow)
    (hok : resolveTime timesDB row.timeID ≠ Except.error ())
    (hbad : normalizeDate pd row.scheduleDate = none) :
    get_sessions timesDB pd today (pre ++ row :: post) sid =
      get_sessions timesDB pd today (pre ++ post) sid := by
  have hrow : processSession timesDB pd today row = none := by
    unfold processSession
    split
    next e heq =>
      cases e
      exact absurd heq hok
    next t heq =>
      rw [hbad]
  by_cases hsid : (row.studentId == sid) = true
  · simp [get_sessions, List.filter_append, List.filter_cons, hsid,
      List.filterMap_append, List.filterMap_cons, hrow]
  · simp [get_sessions, List.filter_append, List.filter_cons, hsid,
      List.filterMap_append]

/-- Witness for C4 (amended) at a concrete unparseable-date row. -/
theorem c4_unparseable_dropped_witness :
    get_sessions (fun _ => some "13:00:00") (fun _ => none) ⟨2025, 8, 16⟩
        ([] ++ (⟨some "Tue", some 3, SchedRaw.strv "nope", 2⟩ : SessionRow)
          :: []) 2
      = get_sessions (fun _ => some "13:00:00") (fun _ => none)
          ⟨2025, 8, 16⟩ ([] ++ []) 2 :=
  c4_unparseable_dropped (fun _ => some "13:00:00") (fun _ => none)
    ⟨2025, 8, 16⟩ 2 [] [] ⟨some "Tue", some 3, SchedRaw.strv "nope", 2⟩
    (fun hx => Except.noConfusion hx) rfl

/-- C8 counterexample: a session with blank day label " " and a valid
in-month date 2025-08-20 keeps its blank Day in the output — it is NOT
replaced by the weekday name "Wednesday" — because its time label "bogus"
makes strptime raise and the lines 176-178 fallback appends the row before
lines 165-166 run.  This refutes the claim for sessions on the exception
path. -/
theorem c8_counterexample :
    get_sessions (fun _ => some "bogus") (fun _ => none) ⟨2025, 8, 16⟩
        [⟨some " ", some 5, SchedRaw.dt ⟨2025, 8, 20⟩, 4⟩] 4
      = [⟨some " ", some 5, SchedRaw.dt ⟨2025, 8, 20⟩, 4, none, none,
          "upcoming"⟩]
    ∧ isBlankDay (some " ") = true
    ∧ normalizeDate (fun _ => none) (SchedRaw.dt ⟨2025, 8, 20⟩) = some ⟨2025, 8, 20⟩
    ∧ (⟨2025, 8, 20⟩ : Date).month = (⟨2025, 8, 16⟩ : Date).month
    ∧ (⟨2025, 8, 20⟩ : Date).year = (⟨2025, 8, 16⟩ : Date).year
    ∧ some " " ≠ some (weekdayName ⟨2025, 8, 20⟩) := by
  refine ⟨?_, rfl, rfl, rfl, rfl, ?_⟩
  · decide
  · decide

/-- C8 (amended): for a session with a valid in-month date whose time
lookup does not raise, the Day field of the output is the weekday name of
the date when the stored label is missing or blank (empty or
whitespace-only) and the unchanged stored label otherwise; a session whose
time lookup raises keeps its stored Day unchanged, blank or not.  The
singleton run of `get_sessions` shows the behaviour end to end. -/
theorem c8_blank_day_weekday (timesDB : Nat → Option String)
    (pd : String → Option Date) (today : Date) (row : SessionRow) (d : Date)
    (t : Option String)
    (hok : resolveTime timesDB row.timeID = Except.ok t)
    (hnd : normalizeDate pd row.scheduleDate = some d)
    (hm : d.month = today.month) (hy : d.year = today.year) :
    processSession timesDB pd today row = some (dateLt d today,
      { Day := if isBlankDay row.day then some (weekdayName d) else row.day,
        TimeID := row.timeID, ScheduleDate := row.scheduleDate,
        StudentId1 := row.studentId, Time := t,
        FormattedDate := some (formatYMD d),
        category := if dateLt d today then "recent" else "upcoming" })
    ∧ get_sessions timesDB pd today [row] row.studentId =
      [{ Day := if isBlankDay row.day then some (weekdayName d) else row.day,
         TimeID := row.timeID, ScheduleDate := row.scheduleDate,
         StudentId1 := row.studentId, Time := t,
         FormattedDate := some (formatYMD d),
         category := if dateLt d today then "recent" else "upcoming" }] := by
  have hcond : (d.month != today.month || d.year != today.year) = false := by
    simp [hm, hy]
  have h1 : processSession timesDB pd today row = some (dateLt d today,
      { Day := if isBlankDay row.day then some (weekdayName d) else row.day,
        TimeID := row.timeID, ScheduleDate := row.scheduleDate,
        StudentId1 := row.studentId, Time := t,
        FormattedDate := some (formatYMD d),
        category := if dateLt d today then "recent" else "upcoming" }) := by
    simp [processSession, hok, hnd, hcond]
  refine ⟨h1, ?_⟩
  cases hdl : dateLt d today with
  | false => simp [get_sessions, h1, hdl]
  | true => simp [get_sessions, h1, hdl]

/-- Witness for C8 at a concrete blank-day in-month session. -/
theorem c8_blank_day_weekday_witness :
    processSession (fun _ => some "13:00:00") (fun _ => none) ⟨2025, 8, 16⟩
        ⟨some " ", some 7, SchedRaw.dt ⟨2025, 8, 20⟩, 1⟩
      = some (dateLt ⟨2025, 8, 20⟩ ⟨2025, 8, 16⟩,
        { Day := if isBlankDay (some " ")
            then some (weekdayName ⟨2025, 8, 20⟩) else some " ",
          TimeID := some 7, ScheduleDate := SchedRaw.dt ⟨2025, 8, 20⟩,
          StudentId1 := 1, Time := some "1:00 PM",
          FormattedDate := some (formatYMD ⟨2025, 8, 20⟩),
          category := if dateLt ⟨2025, 8, 20⟩ ⟨2025, 8, 16⟩
            then "recent" else "upcoming" })
    ∧ get_sessions (fun _ => some "13:00:00") (fun _ => none) ⟨2025, 8, 16⟩
        [⟨some " ", some 7, SchedRaw.dt ⟨2025, 8, 20⟩, 1⟩] 1 =
      [{ Day := if isBlankDay (some " ")
           then some (weekdayName ⟨2025, 8, 20⟩) else some " ",
         TimeID := some 7, ScheduleDate := SchedRaw.dt ⟨2025, 8, 20⟩,
         StudentId1 := 1, Time := some "1:00 PM",
         FormattedDate := some (formatYMD ⟨2025, 8, 20⟩),
         category := if dateLt ⟨2025, 8, 20⟩ ⟨2025, 8, 16⟩
           then "recent" else "upcoming" }] :=
  c8_blank_day_weekday (fun _ => some "13:00:00") (fun _ => none)
    ⟨2025, 8, 16⟩ ⟨some " ", some 7, SchedRaw.dt ⟨2025, 8, 20⟩, 1⟩
    ⟨2025, 8, 20⟩ (some "1:00 PM") rfl rfl rfl rfl

/-- C10: every element of the output of `get_sessions` carries category
"recent" or "upcoming", including rows admitted through the exception
fallback, so partitioning the output by category loses no session. -/
theorem c10_category_total (timesDB : Nat → Option String)
    (pd : String → Option Date) (today : Date) (db : List SessionRow)
    (sid : Nat) (o : OutSession)
    (h : o ∈ get_sessions timesDB pd today db sid) :
    o.category = "recent" ∨ o.category = "upcoming" := by
  rcases mem_get_sessions h with ⟨s, _, b, hps⟩
  rcases processSession_eq_some hps with ⟨_, _, ho⟩ | ⟨t, d, _, _, _, _, _, ho⟩
  · right
    rw [ho]
  · rw [ho]
    cases hdl : dateLt d today with
    | false =>
      right
      simp [hdl]
    | true =>
      left
      simp [hdl]

/-- Witness for C10 at a concrete exception-fallback session. -/
theorem c10_category_total_witness :
    (⟨some "Mon", some 7, SchedRaw.dt ⟨2024, 1, 5⟩, 1, none, none,
        "upcoming"⟩ : OutSession).category = "recent"
    ∨ (⟨some "Mon", some 7, SchedRaw.dt ⟨2024, 1, 5⟩, 1, none, none,
        "upcoming"⟩ : OutSession).category = "upcoming" :=
  c10_category_total (fun _ => some "bogus") (fun _ => none) ⟨2025, 8, 16⟩
    [⟨some "Mon", some 7, SchedRaw.dt ⟨2024, 1, 5⟩, 1⟩] 1
    ⟨some "Mon", some 7, SchedRaw.dt ⟨2024, 1, 5⟩, 1, none, none, "upcoming"⟩
    (by decide)

end TCPortal
